import Mathlib

/-!
# how-to-change: audio-reactive visualisation script (`src/js/scripts.js`)

A shallow embedding of the script's mutable state and of its event handlers.
The script is a single-threaded event-driven program: a synchronous bootstrap
followed by callbacks dispatched one at a time.  Each callback is a function
`State → State`; calls on the external collaborators (the audio object, the
composer, the DOM) are recorded, in call order, in the field `log`.
Numbers are exact rationals; the viewport width and height are naturals.

Taken from the environment rather than from the script: the elements the script
looks up (`.get-started-btn`, `#message`, the two shader blocks) exist, while
`<main>` may be present or not; a click on
the start button bubbles to `window`; attaching the same function to the same
target twice leaves one listener; the loader may call any of its three callbacks
at any time, in any order.  The last point admits more runs than a browser
produces, which only strengthens what is proved of all runs.
-/

namespace HowToChange

/-- Calls on external collaborators, recorded in the order they are made. -/
inductive Op where
  /-- The call `sound.play()` (line 168). -/
  | soundPlay
  /-- The call `sound.pause()` (line 166). -/
  | soundPause
  /-- The call `sound.setBuffer(buffer)` (line 179). -/
  | soundSetBuffer
  /-- Entry into `hideMainSection()` (line 19). -/
  | hideMainSection
  /-- Entry into `animate()` (line 242). -/
  | animate
  /-- The call `camera.lookAt(...)` (lines 130, 245). -/
  | cameraLookAt
  /-- The call `bloomComposer.render()` (line 248). -/
  | composerRender
  /-- The call `requestAnimationFrame(animate)` (line 249). -/
  | requestFrame
  /-- The spinner branch of `updateButtonState()` (lines 42-56). -/
  | buttonSpinner
  /-- The "Get Started" branch of `updateButtonState()` (line 59). -/
  | buttonGetStarted
  /-- A call of `console.log` (lines 178, 191). -/
  | consoleLog
  /-- A call of `console.error` (lines 29, 194). -/
  | consoleError
  deriving DecidableEq, Repr

/-- The six controls of the dat.gui panel (lines 206-226). -/
inductive Control where
  | red | green | blue | threshold | strength | radius
  deriving DecidableEq, Repr

/-- The mutable state of the script. -/
structure State where
  /-- The flag `isLoading` (line 12). -/
  isLoading : Bool
  /-- The flag `isPlaying` (line 162). -/
  isPlaying : Bool
  /-- The number of click listeners attached to `startButton` (line 182). -/
  startClickListeners : Nat
  /-- Whether `togglePlayPause` is attached to `window` as click listener (line 186). -/
  windowClickListener : Bool
  /-- The number of `setTimeout` callbacks of line 185 not yet run. -/
  pendingTimeouts : Nat
  /-- The number of `requestAnimationFrame(animate)` requests not yet run. -/
  pendingFrames : Nat
  /-- The value of `window.innerWidth`. -/
  innerWidth : Nat
  /-- The value of `window.innerHeight`. -/
  innerHeight : Nat
  /-- The value of `message.style.display`. -/
  messageDisplay : String
  /-- Whether `document.querySelector("main")` finds an element. -/
  mainPresent : Bool
  /-- Whether the class list of the `<main>` element holds "hidden" (line 22). -/
  mainHidden : Bool
  /-- The number of `transitionend` listeners attached to `<main>` (lines 23-27)
  and not yet run. -/
  transitionListeners : Nat
  /-- The variable `mouseX` (line 229). -/
  mouseX : ℚ
  /-- The variable `mouseY` (line 230). -/
  mouseY : ℚ
  /-- The value of `camera.position.x`. -/
  cameraX : ℚ
  /-- The value of `camera.position.y`. -/
  cameraY : ℚ
  /-- The value of `camera.position.z`. -/
  cameraZ : ℚ
  /-- The value of `uniforms.u_time.value`. -/
  u_time : ℚ
  /-- The value of `uniforms.u_frequency.value`. -/
  u_frequency : ℚ
  /-- The value of `uniforms.u_red.value`. -/
  u_red : ℚ
  /-- The value of `uniforms.u_green.value`. -/
  u_green : ℚ
  /-- The value of `uniforms.u_blue.value`. -/
  u_blue : ℚ
  /-- The value of `bloomPass.threshold`. -/
  bloomThreshold : ℚ
  /-- The value of `bloomPass.strength`. -/
  bloomStrength : ℚ
  /-- The value of `bloomPass.radius`. -/
  bloomRadius : ℚ
  /-- The calls made so far on the external collaborators, oldest first. -/
  log : List Op

/-- Record one call at the end of the log. -/
def State.emit (s : State) (o : Op) : State :=
  { s with log := s.log ++ [o] }

/-- The function `hideMainSection()` (lines 19-31): with a `<main>` element it adds
the class "hidden" and attaches a one-shot `transitionend` listener, without one
it calls `console.error`. -/
def hideMainSection (s : State) : State :=
  let s0 := s.emit Op.hideMainSection
  if s0.mainPresent then
    let s1 := { s0 with mainHidden := true }
    { s1 with transitionListeners := s1.transitionListeners + 1 }
  else
    s0.emit Op.consoleError

/-- The `transitionend` listeners of `<main>` (line 25): each one runs once and
calls `mainElement.remove()`. -/
def onTransitionEnd (s : State) : State :=
  if 0 < s.transitionListeners then
    { s with mainPresent := false, transitionListeners := 0 }
  else s

/-- The function `updateButtonState()` (lines 41-61). -/
def updateButtonState (s : State) : State :=
  if s.isLoading then s.emit Op.buttonSpinner else s.emit Op.buttonGetStarted

/-- The function `togglePlayPause()` (lines 164-171). -/
def togglePlayPause (s : State) : State :=
  let s1 := if s.isPlaying then s.emit Op.soundPause else s.emit Op.soundPlay
  { s1 with isPlaying := !s1.isPlaying }

/-- The click listener attached to `startButton` (lines 182-188). -/
def startButtonClick (s : State) : State :=
  let s1 := hideMainSection s
  let s2 := togglePlayPause s1
  { s2 with pendingTimeouts := s2.pendingTimeouts + 1 }

/-- The `setTimeout` callback of lines 185-187: attaches `togglePlayPause` to
`window`; attaching the same function twice leaves one listener. -/
def timeoutCallback (s : State) : State :=
  { s with windowClickListener := true }

/-- The success callback of `audioLoader.load` (lines 177-189). -/
def onLoad (s : State) : State :=
  let s1 := s.emit Op.consoleLog
  let s2 := s1.emit Op.soundSetBuffer
  let s3 := { s2 with isLoading := false }
  let s4 := updateButtonState s3
  { s4 with startClickListeners := s4.startClickListeners + 1 }

/-- The progress callback of `audioLoader.load` (lines 190-192). -/
def onProgress (s : State) : State :=
  s.emit Op.consoleLog

/-- The error callback of `audioLoader.load` (lines 193-195). -/
def onError (s : State) : State :=
  s.emit Op.consoleError

/-- The `onChange` callbacks of the six controls (lines 206-226); `Number(value)`
is the identity on a number. -/
def onChange (c : Control) (value : ℚ) (s : State) : State :=
  match c with
  | Control.red => { s with u_red := value }
  | Control.green => { s with u_green := value }
  | Control.blue => { s with u_blue := value }
  | Control.threshold => { s with bloomThreshold := value }
  | Control.strength => { s with bloomStrength := value }
  | Control.radius => { s with bloomRadius := value }

/-- The field a control is bound to. -/
def boundField (c : Control) (s : State) : ℚ :=
  match c with
  | Control.red => s.u_red
  | Control.green => s.u_green
  | Control.blue => s.u_blue
  | Control.threshold => s.bloomThreshold
  | Control.strength => s.bloomStrength
  | Control.radius => s.bloomRadius

/-- The `mousemove` listener (lines 231-236). -/
def onMouseMove (clientX clientY : ℚ) (s : State) : State :=
  let windowHalfX : ℚ := (s.innerWidth : ℚ) / 2
  let windowHalfY : ℚ := (s.innerHeight : ℚ) / 2
  { s with mouseX := (clientX - windowHalfX) / 100,
           mouseY := (clientY - windowHalfY) / 100 }

/-- The function `animate()` (lines 242-250); `elapsed` is what `clock.getElapsedTime()` returns
and `frequency` what `analyser.getAverageFrequency()` returns at this call. -/
def animate (elapsed frequency : ℚ) (s : State) : State :=
  let s0 := s.emit Op.animate
  let s1 := { s0 with cameraX := s0.cameraX + (s0.mouseX - s0.cameraX) * (5 / 100) }
  let s2 := { s1 with cameraY := s1.cameraY + (-s1.mouseY - s1.cameraY) * (50 / 100) }
  let s3 := s2.emit Op.cameraLookAt
  let s4 := { s3 with u_time := elapsed }
  let s5 := { s4 with u_frequency := frequency }
  let s6 := s5.emit Op.composerRender
  let s7 := s6.emit Op.requestFrame
  { s7 with pendingFrames := s7.pendingFrames + 1 }

/-- The function `checkOrientation()` (lines 254-262). -/
def checkOrientation (s : State) : State :=
  if s.innerHeight > s.innerWidth then
    let s1 := { s with messageDisplay := "flex" }
    if !s1.isLoading then togglePlayPause s1 else s1
  else
    { s with messageDisplay := "none" }

/-- What the environment supplies to the bootstrap: the viewport size, the
readings of the clock and of the analyser at the first `animate()` call, and
whether the page has a `<main>` element. -/
structure BootEnv where
  innerWidth : Nat
  innerHeight : Nat
  elapsed : ℚ
  frequency : ℚ
  mainPresent : Bool

/-- The state after the declarations of lines 12-239, before line 251: the
flags, `params` copied into `bloomPass` (lines 115-117), the camera placed at
`(0, -2, 14)` and aimed (lines 129-130), the uniforms (lines 133-139); the
load has been requested and no callback has run. -/
def declared (b : BootEnv) : State :=
  let s : State :=
    { isLoading := true, isPlaying := false,
      startClickListeners := 0, windowClickListener := false,
      pendingTimeouts := 0, pendingFrames := 0,
      innerWidth := b.innerWidth, innerHeight := b.innerHeight,
      messageDisplay := "",
      mainPresent := b.mainPresent, mainHidden := false, transitionListeners := 0,
      mouseX := 0, mouseY := 0,
      cameraX := 0, cameraY := -2, cameraZ := 14,
      u_time := 0, u_frequency := 0, u_red := 1, u_green := 1, u_blue := 1,
      bloomThreshold := 5 / 10, bloomStrength := 5 / 10, bloomRadius := 8 / 10,
      log := [] }
  (updateButtonState s).emit Op.cameraLookAt

/-- The whole synchronous bootstrap: the declarations, then `animate()` (line 251),
then `checkOrientation()` (line 263); the resize listener is attached last
(line 264). -/
def boot (b : BootEnv) : State :=
  checkOrientation (animate b.elapsed b.frequency (declared b))

/-- What can happen after the bootstrap. -/
inductive Event where
  /-- The loader calls the success callback. -/
  | loadSuccess
  /-- The loader calls the progress callback. -/
  | loadProgress
  /-- The loader calls the error callback. -/
  | loadError
  /-- A click on the start button; it bubbles to `window`. -/
  | startClick
  /-- A click elsewhere in the window. -/
  | windowClick
  /-- The window is resized to the given width and height. -/
  | resize (width height : Nat)
  /-- The mouse moves to the given client coordinates. -/
  | mouseMove (clientX clientY : ℚ)
  /-- An animation frame is due; the clock and the analyser read as given. -/
  | frame (elapsed frequency : ℚ)
  /-- A timer set at line 185 expires. -/
  | timeout
  /-- The fade-out transition of `<main>` ends. -/
  | transitionEnd
  /-- A control of the panel changes to the given value. -/
  | change (c : Control) (value : ℚ)
  deriving DecidableEq

/-- The listeners of `window` for a click: `togglePlayPause` when attached. -/
def windowClickDispatch (s : State) : State :=
  if s.windowClickListener then togglePlayPause s else s

/-- Dispatch one event to the callbacks registered for it. -/
def step (s : State) : Event → State
  | Event.loadSuccess => onLoad s
  | Event.loadProgress => onProgress s
  | Event.loadError => onError s
  | Event.startClick =>
      let attached := s.windowClickListener
      let s1 := Nat.iterate startButtonClick s.startClickListeners s
      if attached then togglePlayPause s1 else s1
  | Event.windowClick => windowClickDispatch s
  | Event.resize w h => checkOrientation { s with innerWidth := w, innerHeight := h }
  | Event.mouseMove x y => onMouseMove x y s
  | Event.frame t f =>
      if 0 < s.pendingFrames then
        animate t f { s with pendingFrames := s.pendingFrames - 1 }
      else s
  | Event.timeout =>
      if 0 < s.pendingTimeouts then
        timeoutCallback { s with pendingTimeouts := s.pendingTimeouts - 1 }
      else s
  | Event.transitionEnd => onTransitionEnd s
  | Event.change c v => onChange c v s

/-- Dispatch a sequence of events, first to last. -/
def run (s : State) (tr : List Event) : State :=
  tr.foldl step s

/-- The playback calls (`sound.play`, `sound.pause`) of a log, in order. -/
def playbackCalls (log : List Op) : List Op :=
  log.filter (fun o => o = Op.soundPlay ∨ o = Op.soundPause)

/-- The calls a run starting at `s` and ending at `t` has added to the log. -/
def emitted (s t : State) : List Op :=
  t.log.drop s.log.length

/-- The call one `togglePlayPause()` makes when the flag reads `playing`. -/
def toggleCall (playing : Bool) : Op :=
  if playing then Op.soundPause else Op.soundPlay

/-- The calls `n` successive `togglePlayPause()` make, starting with the flag at
`playing` (used to describe the log of an iteration). -/
def toggleCalls : Bool → Nat → List Op
  | _, 0 => []
  | playing, n + 1 => toggleCall playing :: toggleCalls (!playing) n

/-- A state reached with the audio loaded and playing, in an 800x600 viewport. -/
def playingLandscape : State :=
  run (boot ⟨800, 600, 0, 0, true⟩) [Event.loadSuccess, Event.startClick]

/-- A state reached with the audio loaded, started once and then paused by a
resize to 600x800. -/
def pausedPortrait : State :=
  run playingLandscape [Event.resize 600 800]

/-- Whether an event is an animation frame. -/
def Event.isFrame : Event → Bool
  | Event.frame _ _ => true
  | _ => false

/-- The calls a user action makes: those of the start-button listener and of
`togglePlayPause`. -/
def Op.isUserCall : Op → Bool
  | Op.soundPlay => true
  | Op.soundPause => true
  | Op.hideMainSection => true
  | _ => false

/-- The calls the start-button listener can make, the `console.error` of
`hideMainSection` included. -/
def Op.isClickCall : Op → Bool
  | Op.soundPlay => true
  | Op.soundPause => true
  | Op.hideMainSection => true
  | Op.consoleError => true
  | _ => false

/-- No handler that a user action needs is attached and none is about to be: no
click listener on the start button or on the window, no pending timer. -/
def State.unwired (s : State) : Prop :=
  s.startClickListeners = 0 ∧ s.windowClickListener = false ∧ s.pendingTimeouts = 0

/-! ## `togglePlayPause` -/

@[simp] theorem emit_log (s : State) (o : Op) : (s.emit o).log = s.log ++ [o] := rfl

@[simp] theorem emit_isLoading (s : State) (o : Op) : (s.emit o).isLoading = s.isLoading := rfl

@[simp] theorem emit_isPlaying (s : State) (o : Op) : (s.emit o).isPlaying = s.isPlaying := rfl

theorem togglePlayPause_isPlaying (s : State) :
    (togglePlayPause s).isPlaying = !s.isPlaying := by
  unfold togglePlayPause
  cases h : s.isPlaying <;> simp [h]

theorem togglePlayPause_log (s : State) :
    (togglePlayPause s).log = s.log ++ [toggleCall s.isPlaying] := by
  unfold togglePlayPause toggleCall
  cases h : s.isPlaying <;> simp [h]

theorem togglePlayPause_isLoading (s : State) :
    (togglePlayPause s).isLoading = s.isLoading := by
  unfold togglePlayPause
  cases h : s.isPlaying <;> simp [h]

theorem iterate_toggle_log (n : Nat) (s : State) :
    (togglePlayPause^[n] s).log = s.log ++ toggleCalls s.isPlaying n := by
  induction n generalizing s with
  | zero => simp [toggleCalls]
  | succ n ih =>
    rw [Function.iterate_succ_apply, ih, togglePlayPause_log, togglePlayPause_isPlaying]
    simp [toggleCalls]

theorem toggleCalls_length (b : Bool) (n : Nat) : (toggleCalls b n).length = n := by
  induction n generalizing b with
  | zero => rfl
  | succ n ih => simp [toggleCalls, ih]

theorem toggleCalls_mem (b : Bool) (n : Nat) :
    ∀ o ∈ toggleCalls b n, o = Op.soundPlay ∨ o = Op.soundPause := by
  induction n generalizing b with
  | zero => simp [toggleCalls]
  | succ n ih =>
    intro o ho
    simp only [toggleCalls, List.mem_cons] at ho
    rcases ho with rfl | ho
    · cases b <;> simp [toggleCall]
    · exact ih _ o ho

theorem toggleCalls_chain (b : Bool) (n : Nat) :
    List.Chain' (fun a c => a ≠ c) (toggleCalls b n) := by
  induction n generalizing b with
  | zero => simp [toggleCalls]
  | succ n ih =>
    cases n with
    | zero => simp [toggleCalls]
    | succ m =>
      have h := ih (!b)
      simp only [toggleCalls] at h ⊢
      refine List.Chain'.cons ?_ h
      cases b <;> simp [toggleCall]

theorem emitted_of_log (s t : State) (l : List Op) (h : t.log = s.log ++ l) :
    emitted s t = l := by
  simp [emitted, h]

/-- C1: two successive `togglePlayPause()` restore `isPlaying`; they call play then
pause when the flag was false and pause then play when it was true; and the calls
made by any number `n` of successive `togglePlayPause()` are `n` calls of
`sound.play`/`sound.pause` in which no two consecutive ones are the same. -/
theorem togglePlayPause_twice_alternates (s : State) (n : Nat) :
    (togglePlayPause (togglePlayPause s)).isPlaying = s.isPlaying
    ∧ emitted s (togglePlayPause (togglePlayPause s)) =
        (if s.isPlaying then [Op.soundPause, Op.soundPlay]
         else [Op.soundPlay, Op.soundPause])
    ∧ (emitted s (togglePlayPause^[n] s)).length = n
    ∧ (∀ o ∈ emitted s (togglePlayPause^[n] s), o = Op.soundPlay ∨ o = Op.soundPause)
    ∧ List.Chain' (fun a c => a ≠ c) (emitted s (togglePlayPause^[n] s)) := by
  have hn := emitted_of_log s _ _ (iterate_toggle_log n s)
  refine ⟨?_, ?_, ?_, ?_, ?_⟩
  · simp [togglePlayPause_isPlaying]
  · have h2 := emitted_of_log s _ _ (iterate_toggle_log 2 s)
    simp only [Function.iterate_succ, Function.iterate_zero, Function.comp_apply, id] at h2
    rw [h2]
    cases s.isPlaying <;> simp [toggleCalls, toggleCall]
  · rw [hn]; exact toggleCalls_length _ _
  · rw [hn]; exact toggleCalls_mem _ _
  · rw [hn]; exact toggleCalls_chain _ _

/-! ## `checkOrientation` -/

theorem checkOrientation_portrait (s : State) (h : s.innerHeight > s.innerWidth) :
    checkOrientation s =
      if s.isLoading then { s with messageDisplay := "flex" }
      else togglePlayPause { s with messageDisplay := "flex" } := by
  unfold checkOrientation
  cases hl : s.isLoading <;> simp [h, hl]

theorem checkOrientation_landscape (s : State) (h : s.innerHeight ≤ s.innerWidth) :
    checkOrientation s = { s with messageDisplay := "none" } := by
  unfold checkOrientation
  simp [Nat.not_lt.mpr h]

theorem togglePlayPause_messageDisplay (s : State) :
    (togglePlayPause s).messageDisplay = s.messageDisplay := by
  unfold togglePlayPause State.emit
  cases h : s.isPlaying <;> simp [h]

theorem checkOrientation_messageDisplay (s : State) :
    (checkOrientation s).messageDisplay =
      if s.innerHeight > s.innerWidth then "flex" else "none" := by
  by_cases h : s.innerHeight > s.innerWidth
  · rw [checkOrientation_portrait s h]
    cases hl : s.isLoading <;> simp [h, togglePlayPause_messageDisplay]
  · rw [checkOrientation_landscape s (Nat.not_lt.mp h)]
    simp [h]

/-- C2: `checkOrientation` sets the message's display to "flex" exactly when
`innerHeight > innerWidth` and to "none" exactly when `innerHeight ≤ innerWidth`;
one of the two happens and never both; the display set is a function of the
viewport alone, whatever the loading and playback flags (the statement holds for
every viewport size, the nonzero ones included). -/
theorem checkOrientation_display (s : State) :
    ((checkOrientation s).messageDisplay = "flex" ↔ s.innerHeight > s.innerWidth)
    ∧ ((checkOrientation s).messageDisplay = "none" ↔ s.innerHeight ≤ s.innerWidth)
    ∧ ((checkOrientation s).messageDisplay = "flex"
        ∨ (checkOrientation s).messageDisplay = "none")
    ∧ ¬ ((checkOrientation s).messageDisplay = "flex"
        ∧ (checkOrientation s).messageDisplay = "none")
    ∧ (checkOrientation s).messageDisplay =
        (if s.innerHeight > s.innerWidth then "flex" else "none") := by
  have hne : ("flex" : String) ≠ "none" := by decide
  rw [checkOrientation_messageDisplay]
  by_cases h : s.innerHeight > s.innerWidth
  · simp [h, hne]
  · simp [h, hne.symm, Nat.not_lt.mp h]

/-- C2 at 600x800 and at 800x600, with the flags of two reachable states. -/
theorem checkOrientation_display_witness :
    (checkOrientation pausedPortrait).messageDisplay = "flex"
    ∧ (checkOrientation playingLandscape).messageDisplay = "none" :=
  ⟨(checkOrientation_display pausedPortrait).1.mpr (by decide),
   (checkOrientation_display playingLandscape).2.1.mpr (by decide)⟩

/-- C3 holds of the intended behaviour and the code breaks it: line 258 calls
`togglePlayPause()` where a pause is meant.  In the reachable state
`pausedPortrait` the audio is loaded, the viewport is 600x800 and playback is
paused; `checkOrientation` there calls `sound.play` and leaves `isPlaying` true.
Likewise, booted at 800x600 and loaded, a first resize to 600x800 starts the
audio without any click, and after a resize back to 800x600 the click on the
start button, whose `togglePlayPause()` line 184 comments as "Play the audio",
calls `sound.pause` and leaves `isPlaying` false. -/
theorem checkOrientation_portrait_resumes :
    pausedPortrait.isLoading = false
    ∧ pausedPortrait.innerHeight > pausedPortrait.innerWidth
    ∧ pausedPortrait.isPlaying = false
    ∧ (checkOrientation pausedPortrait).isPlaying = true
    ∧ emitted pausedPortrait (checkOrientation pausedPortrait) = [Op.soundPlay]
    ∧ (run (boot ⟨800, 600, 0, 0, true⟩)
        [Event.loadSuccess, Event.resize 600 800]).isPlaying = true
    ∧ playbackCalls (run (boot ⟨800, 600, 0, 0, true⟩)
        [Event.loadSuccess, Event.resize 600 800]).log = [Op.soundPlay]
    ∧ (run (boot ⟨800, 600, 0, 0, true⟩)
        [Event.loadSuccess, Event.resize 600 800, Event.resize 800 600,
         Event.startClick]).isPlaying = false
    ∧ playbackCalls (run (boot ⟨800, 600, 0, 0, true⟩)
        [Event.loadSuccess, Event.resize 600 800, Event.resize 800 600,
         Event.startClick]).log = [Op.soundPlay, Op.soundPause] := by
  decide

/-- C4: in landscape (`innerHeight ≤ innerWidth`), and whenever `isLoading` is true,
`checkOrientation` leaves `isPlaying` as it was and makes no call at all, so
neither `sound.play` nor `sound.pause`. -/
theorem checkOrientation_no_playback (s : State)
    (h : s.innerHeight ≤ s.innerWidth ∨ s.isLoading = true) :
    (checkOrientation s).isPlaying = s.isPlaying
    ∧ (checkOrientation s).log = s.log
    ∧ emitted s (checkOrientation s) = [] := by
  have key : (checkOrientation s).isPlaying = s.isPlaying
      ∧ (checkOrientation s).log = s.log := by
    by_cases hp : s.innerHeight > s.innerWidth
    · have hl : s.isLoading = true := by
        rcases h with h | h
        · exact absurd hp (Nat.not_lt.mpr h)
        · exact h
      rw [checkOrientation_portrait s hp]
      simp [hl]
    · rw [checkOrientation_landscape s (Nat.not_lt.mp hp)]
      simp
  exact ⟨key.1, key.2, emitted_of_log s _ [] (by simp [key.2])⟩

/-- C4 on the trace of the claim: from `playingLandscape` (loaded, playing), a
check at 800x600 hides the warning and makes no call; a check at 600x800 shows
it and pauses; a check at 800x600 hides it, makes no call, and `isPlaying` stays
false.  The first and the third step are instances of the theorem. -/
theorem checkOrientation_no_playback_witness :
    (playingLandscape.isPlaying = true ∧ playingLandscape.isLoading = false)
    ∧ ((step playingLandscape (Event.resize 800 600)).messageDisplay = "none"
        ∧ (step playingLandscape (Event.resize 800 600)).isPlaying = true
        ∧ emitted playingLandscape (step playingLandscape (Event.resize 800 600)) = [])
    ∧ ((run playingLandscape [Event.resize 800 600, Event.resize 600 800]).messageDisplay
          = "flex"
        ∧ (run playingLandscape [Event.resize 800 600, Event.resize 600 800]).isPlaying
          = false
        ∧ emitted (run playingLandscape [Event.resize 800 600])
            (run playingLandscape [Event.resize 800 600, Event.resize 600 800])
          = [Op.soundPause])
    ∧ ((checkOrientation
          { run playingLandscape [Event.resize 800 600, Event.resize 600 800] with
            innerWidth := 800, innerHeight := 600 }).isPlaying = false
        ∧ (checkOrientation
          { run playingLandscape [Event.resize 800 600, Event.resize 600 800] with
            innerWidth := 800, innerHeight := 600 }).log
          = (run playingLandscape [Event.resize 800 600, Event.resize 600 800]).log
        ∧ (checkOrientation
          { run playingLandscape [Event.resize 800 600, Event.resize 600 800] with
            innerWidth := 800, innerHeight := 600 }).messageDisplay = "none") :=
  ⟨by decide, by decide, by decide,
   ((checkOrientation_no_playback
      { run playingLandscape [Event.resize 800 600, Event.resize 600 800] with
        innerWidth := 800, innerHeight := 600 } (Or.inl (by decide))).1).trans (by decide),
   (checkOrientation_no_playback
      { run playingLandscape [Event.resize 800 600, Event.resize 600 800] with
        innerWidth := 800, innerHeight := 600 } (Or.inl (by decide))).2.1,
   by decide⟩

/-! ## The handlers as record updates -/

theorem togglePlayPause_eq (s : State) :
    togglePlayPause s =
      { s with isPlaying := !s.isPlaying, log := s.log ++ [toggleCall s.isPlaying] } := by
  unfold togglePlayPause toggleCall State.emit
  cases h : s.isPlaying <;> simp [h]

theorem startButtonClick_eq (s : State) :
    ∃ h k l, startButtonClick s =
        { s with isPlaying := !s.isPlaying, pendingTimeouts := s.pendingTimeouts + 1,
                 mainHidden := h, transitionListeners := k, log := s.log ++ l }
      ∧ ∀ o ∈ l, o.isClickCall = true := by
  cases hm : s.mainPresent
  · refine ⟨s.mainHidden, s.transitionListeners,
      [Op.hideMainSection, Op.consoleError, toggleCall s.isPlaying], ?_, ?_⟩
    · simp [startButtonClick, hideMainSection, togglePlayPause_eq, State.emit, hm]
    · intro o ho
      simp only [List.mem_cons, List.mem_singleton, List.not_mem_nil, or_false] at ho
      rcases ho with rfl | rfl | rfl
      · rfl
      · rfl
      · cases s.isPlaying <;> rfl
  · refine ⟨true, s.transitionListeners + 1,
      [Op.hideMainSection, toggleCall s.isPlaying], ?_, ?_⟩
    · simp [startButtonClick, hideMainSection, togglePlayPause_eq, State.emit, hm]
    · intro o ho
      simp only [List.mem_cons, List.mem_singleton, List.not_mem_nil, or_false] at ho
      rcases ho with rfl | rfl
      · rfl
      · cases s.isPlaying <;> rfl

theorem iterate_startButtonClick (n : Nat) (s : State) :
    ∃ p h k l, startButtonClick^[n] s =
        { s with isPlaying := p, pendingTimeouts := s.pendingTimeouts + n,
                 mainHidden := h, transitionListeners := k, log := s.log ++ l }
      ∧ ∀ o ∈ l, o.isClickCall = true := by
  induction n generalizing s with
  | zero => exact ⟨s.isPlaying, s.mainHidden, s.transitionListeners, [], by simp, by simp⟩
  | succ n ih =>
    obtain ⟨h1, k1, l1, e1, hl1⟩ := startButtonClick_eq s
    obtain ⟨p, h2, k2, l2, e2, hl2⟩ := ih (startButtonClick s)
    refine ⟨p, h2, k2, l1 ++ l2, ?_, ?_⟩
    · rw [Function.iterate_succ_apply, e2, e1]
      simp [Nat.add_assoc, Nat.add_comm 1 n]
    · intro o ho
      rcases List.mem_append.mp ho with ho | ho
      · exact hl1 o ho
      · exact hl2 o ho

theorem onLoad_eq (s : State) :
    onLoad s =
      { s with isLoading := false, startClickListeners := s.startClickListeners + 1,
               log := s.log ++ [Op.consoleLog, Op.soundSetBuffer, Op.buttonGetStarted] } := by
  simp [onLoad, updateButtonState, State.emit]

theorem animate_eq (t f : ℚ) (s : State) :
    animate t f s =
      { s with cameraX := s.cameraX + (s.mouseX - s.cameraX) * (5 / 100),
               cameraY := s.cameraY + (-s.mouseY - s.cameraY) * (50 / 100),
               u_time := t, u_frequency := f,
               pendingFrames := s.pendingFrames + 1,
               log := s.log ++
                 [Op.animate, Op.cameraLookAt, Op.composerRender, Op.requestFrame] } := by
  simp [animate, State.emit]

theorem checkOrientation_eq (s : State) :
    checkOrientation s =
      if s.innerHeight > s.innerWidth then
        if s.isLoading then { s with messageDisplay := "flex" }
        else { s with messageDisplay := "flex", isPlaying := !s.isPlaying,
                      log := s.log ++ [toggleCall s.isPlaying] }
      else { s with messageDisplay := "none" } := by
  unfold checkOrientation
  by_cases h : s.innerHeight > s.innerWidth
  · cases hl : s.isLoading <;> simp [h, hl, togglePlayPause_eq]
  · simp [h]

/-! ## The loading flag -/

theorem step_isLoading (s : State) (e : Event) :
    (step s e).isLoading = if e = Event.loadSuccess then false else s.isLoading := by
  cases e with
  | loadSuccess => simp [step, onLoad_eq]
  | loadProgress => simp [step, onProgress, State.emit]
  | loadError => simp [step, onError, State.emit]
  | startClick =>
    obtain ⟨p, mh, tl, l, h, -⟩ := iterate_startButtonClick s.startClickListeners s
    simp only [step, h, togglePlayPause_eq]
    split <;> simp
  | windowClick =>
    simp only [step, windowClickDispatch, togglePlayPause_eq]
    split <;> simp
  | resize w h =>
    simp only [step, checkOrientation_eq]
    split_ifs <;> simp_all
  | mouseMove x y => simp [step, onMouseMove]
  | frame t f =>
    simp only [step, animate_eq]
    split <;> simp
  | timeout =>
    simp only [step, timeoutCallback]
    split <;> simp
  | transitionEnd =>
    simp only [step, onTransitionEnd]
    split <;> simp
  | change c v => cases c <;> simp [step, onChange]

theorem run_nil (s : State) : run s [] = s := rfl

theorem run_cons (s : State) (e : Event) (tr : List Event) :
    run s (e :: tr) = run (step s e) tr := rfl

theorem run_append (s : State) (tr tr2 : List Event) :
    run s (tr ++ tr2) = run (run s tr) tr2 := by
  simp [run, List.foldl_append]

theorem run_concat (s : State) (tr : List Event) (e : Event) :
    run s (tr ++ [e]) = step (run s tr) e := by
  simp [run, List.foldl_append]

theorem run_isLoading_false (s : State) (tr : List Event) (h : s.isLoading = false) :
    (run s tr).isLoading = false := by
  induction tr generalizing s with
  | nil => exact h
  | cons e tr ih =>
    rw [run_cons]
    apply ih
    rw [step_isLoading, h]
    simp

theorem boot_isLoading (b : BootEnv) : (boot b).isLoading = true := by
  simp [boot, checkOrientation_eq, animate_eq, declared, updateButtonState, State.emit]
  split_ifs <;> simp

/-- C9: `isLoading` is true after the bootstrap; a dispatch that changes it is the
success callback taking it from true to false; the success callback always leaves
it false; from a state where it is false no sequence of events (clicks, resizes,
progress, error, frames, timers, control changes, mouse moves) makes it true
again, so it is false in every state reached after a success callback. -/
theorem isLoading_monotone (b : BootEnv) (s : State) (e : Event)
    (tr tr2 : List Event) :
    (boot b).isLoading = true
    ∧ ((step s e).isLoading ≠ s.isLoading →
        e = Event.loadSuccess ∧ s.isLoading = true ∧ (step s e).isLoading = false)
    ∧ (step s Event.loadSuccess).isLoading = false
    ∧ (s.isLoading = false → (run s tr).isLoading = false)
    ∧ (run (boot b) (tr ++ Event.loadSuccess :: tr2)).isLoading = false := by
  refine ⟨boot_isLoading b, ?_, ?_, run_isLoading_false s tr, ?_⟩
  · intro h
    rw [step_isLoading] at h ⊢
    by_cases he : e = Event.loadSuccess
    · simp only [he, if_true] at h
      refine ⟨he, ?_, by simp [he]⟩
      cases hl : s.isLoading
      · exact absurd hl.symm h
      · rfl
    · simp [he] at h
  · simp [step_isLoading]
  · rw [run_append, run_cons]
    apply run_isLoading_false
    simp [step_isLoading]

/-- C9 on a concrete run: booted at 800x600, the flag is true; the success callback
changes it, and it is false after the clicks, resizes, error, frame and control
change that follow. -/
theorem isLoading_monotone_witness :
    (step (boot ⟨800, 600, 0, 0, true⟩) Event.loadSuccess).isLoading
      ≠ (boot ⟨800, 600, 0, 0, true⟩).isLoading
    ∧ (step (boot ⟨800, 600, 0, 0, true⟩) Event.loadSuccess).isLoading = false
    ∧ (run (step (boot ⟨800, 600, 0, 0, true⟩) Event.loadSuccess)
        [Event.startClick, Event.timeout, Event.windowClick, Event.resize 600 800,
         Event.loadError, Event.loadProgress, Event.frame 1 0,
         Event.change Control.red 0]).isLoading = false :=
  ⟨by decide, by decide,
   (isLoading_monotone ⟨800, 600, 0, 0, true⟩
      (step (boot ⟨800, 600, 0, 0, true⟩) Event.loadSuccess) Event.loadError
      [Event.startClick, Event.timeout, Event.windowClick, Event.resize 600 800,
       Event.loadError, Event.loadProgress, Event.frame 1 0,
       Event.change Control.red 0] []).2.2.2.1 (by decide)⟩

/-! ## Dispatch while nothing is wired -/

theorem step_log (s : State) (e : Event) : ∃ l, (step s e).log = s.log ++ l := by
  cases e with
  | loadSuccess =>
    exact ⟨[Op.consoleLog, Op.soundSetBuffer, Op.buttonGetStarted], by simp [step, onLoad_eq]⟩
  | loadProgress => exact ⟨[Op.consoleLog], rfl⟩
  | loadError => exact ⟨[Op.consoleError], rfl⟩
  | startClick =>
    obtain ⟨p, mh, tl, l, h, -⟩ := iterate_startButtonClick s.startClickListeners s
    simp only [step, h, togglePlayPause_eq]
    split
    · exact ⟨l ++ [toggleCall p], by simp⟩
    · exact ⟨l, rfl⟩
  | windowClick =>
    simp only [step, windowClickDispatch, togglePlayPause_eq]
    split
    · exact ⟨_, rfl⟩
    · exact ⟨[], by simp⟩
  | resize w h =>
    simp only [step, checkOrientation_eq]
    split_ifs
    · exact ⟨[], by simp⟩
    · exact ⟨_, rfl⟩
    · exact ⟨[], by simp⟩
  | mouseMove x y => exact ⟨[], by simp [step, onMouseMove]⟩
  | frame t f =>
    simp only [step, animate_eq]
    split
    · exact ⟨_, rfl⟩
    · exact ⟨[], by simp⟩
  | timeout =>
    simp only [step, timeoutCallback]
    split <;> exact ⟨[], by simp⟩
  | transitionEnd =>
    simp only [step, onTransitionEnd]
    split <;> exact ⟨[], by simp⟩
  | change c v => cases c <;> exact ⟨[], by simp [step, onChange]⟩

theorem run_log (s : State) (tr : List Event) : ∃ l, (run s tr).log = s.log ++ l := by
  induction tr generalizing s with
  | nil => exact ⟨[], by simp [run_nil]⟩
  | cons e tr ih =>
    obtain ⟨l1, h1⟩ := step_log s e
    obtain ⟨l2, h2⟩ := ih (step s e)
    exact ⟨l1 ++ l2, by rw [run_cons, h2, h1, List.append_assoc]⟩

theorem step_unwired (s : State) (e : Event) (hl : s.isLoading = true)
    (hu : s.unwired) :
    (e ≠ Event.loadSuccess → (step s e).unwired)
    ∧ (step s e).isPlaying = s.isPlaying
    ∧ ∃ l, (step s e).log = s.log ++ l ∧ ∀ o ∈ l, o.isUserCall = false := by
  obtain ⟨h0, hw, ht⟩ := hu
  cases e with
  | loadSuccess =>
    refine ⟨fun h => absurd rfl h, by simp [step, onLoad_eq],
      [Op.consoleLog, Op.soundSetBuffer, Op.buttonGetStarted], by simp [step, onLoad_eq], ?_⟩
    intro o ho
    simp only [List.mem_cons, List.mem_singleton, List.not_mem_nil, or_false] at ho
    rcases ho with rfl | rfl | rfl <;> rfl
  | loadProgress =>
    refine ⟨fun _ => ⟨h0, hw, ht⟩, rfl, [Op.consoleLog], rfl, ?_⟩
    intro o ho
    simp only [List.mem_singleton] at ho
    subst ho; rfl
  | loadError =>
    refine ⟨fun _ => ⟨h0, hw, ht⟩, rfl, [Op.consoleError], rfl, ?_⟩
    intro o ho
    simp only [List.mem_singleton] at ho
    subst ho; rfl
  | startClick =>
    have hs : step s Event.startClick = s := by simp [step, h0, hw]
    rw [hs]
    exact ⟨fun _ => ⟨h0, hw, ht⟩, rfl, [], by simp, by simp⟩
  | windowClick =>
    have hs : step s Event.windowClick = s := by simp [step, windowClickDispatch, hw]
    rw [hs]
    exact ⟨fun _ => ⟨h0, hw, ht⟩, rfl, [], by simp, by simp⟩
  | resize w h =>
    simp only [step, checkOrientation_eq, hl, if_true]
    split_ifs <;> exact ⟨fun _ => ⟨h0, hw, ht⟩, rfl, [], by simp, by simp⟩
  | mouseMove x y =>
    exact ⟨fun _ => ⟨h0, hw, ht⟩, rfl, [], by simp [step, onMouseMove], by simp⟩
  | frame t f =>
    simp only [step, animate_eq]
    split
    · refine ⟨fun _ => ⟨h0, hw, ht⟩, rfl, _, rfl, ?_⟩
      intro o ho
      simp only [List.mem_cons, List.mem_singleton, List.not_mem_nil, or_false] at ho
      rcases ho with rfl | rfl | rfl | rfl <;> rfl
    · exact ⟨fun _ => ⟨h0, hw, ht⟩, rfl, [], by simp, by simp⟩
  | timeout =>
    have hs : step s Event.timeout = s := by simp [step, ht]
    rw [hs]
    exact ⟨fun _ => ⟨h0, hw, ht⟩, rfl, [], by simp, by simp⟩
  | transitionEnd =>
    simp only [step, onTransitionEnd]
    split <;> exact ⟨fun _ => ⟨h0, hw, ht⟩, rfl, [], by simp, by simp⟩
  | change c v =>
    cases c <;>
      exact ⟨fun _ => ⟨h0, hw, ht⟩, rfl, [], by simp [step, onChange], by simp⟩

theorem boot_eq (b : BootEnv) :
    ∃ d, boot b =
      { declared b with
        cameraY := -2 + (-0 - -2) * (50 / 100), u_time := b.elapsed,
        u_frequency := b.frequency, pendingFrames := 1, messageDisplay := d,
        log := [Op.buttonSpinner, Op.cameraLookAt, Op.animate, Op.cameraLookAt,
                Op.composerRender, Op.requestFrame] } := by
  by_cases h : b.innerHeight > b.innerWidth
  · exact ⟨"flex", by
      simp [boot, checkOrientation_eq, animate_eq, declared, updateButtonState, State.emit, h]⟩
  · exact ⟨"none", by
      simp [boot, checkOrientation_eq, animate_eq, declared, updateButtonState, State.emit, h]⟩

theorem boot_unwired (b : BootEnv) :
    (boot b).unwired ∧ (boot b).isPlaying = false
    ∧ (boot b).log = [Op.buttonSpinner, Op.cameraLookAt, Op.animate, Op.cameraLookAt,
                Op.composerRender, Op.requestFrame]
    ∧ (boot b).pendingFrames = 1 := by
  obtain ⟨d, h⟩ := boot_eq b
  rw [h]
  simp [State.unwired, declared, updateButtonState, State.emit]

theorem run_unwired (s : State) (tr : List Event) (hl : s.isLoading = true)
    (hu : s.unwired) (hno : Event.loadSuccess ∉ tr) :
    (run s tr).isLoading = true ∧ (run s tr).unwired
    ∧ (run s tr).isPlaying = s.isPlaying
    ∧ ∃ l, (run s tr).log = s.log ++ l ∧ ∀ o ∈ l, o.isUserCall = false := by
  induction tr generalizing s with
  | nil => exact ⟨hl, hu, rfl, [], by simp [run_nil], by simp⟩
  | cons e tr ih =>
    have hne : e ≠ Event.loadSuccess := fun h => hno (by simp [h])
    obtain ⟨h1, h2, l1, h3, h4⟩ := step_unwired s e hl hu
    have hl2 : (step s e).isLoading = true := by rw [step_isLoading]; simp [hne, hl]
    obtain ⟨k1, k2, k3, l2, k4, k5⟩ :=
      ih (step s e) hl2 (h1 hne) (fun h => hno (List.mem_cons_of_mem _ h))
    refine ⟨by rw [run_cons]; exact k1, by rw [run_cons]; exact k2,
      by rw [run_cons, k3, h2], l1 ++ l2, by rw [run_cons, k4, h3, List.append_assoc], ?_⟩
    intro o ho
    rcases List.mem_append.mp ho with ho | ho
    · exact h4 o ho
    · exact k5 o ho

/-! ## Playback only after the load -/

theorem playbackCalls_append (l k : List Op) :
    playbackCalls (l ++ k) = playbackCalls l ++ playbackCalls k := by
  simp [playbackCalls]

theorem playbackCalls_of_not_userCall (l : List Op) (h : ∀ o ∈ l, o.isUserCall = false) :
    playbackCalls l = [] := by
  simp only [playbackCalls, List.filter_eq_nil_iff]
  intro o ho hor
  have := h o ho
  rcases (of_decide_eq_true hor) with rfl | rfl <;> simp [Op.isUserCall] at this

theorem step_wiring (s : State) (e : Event)
    (h1 : s.isLoading = true → s.unwired)
    (h2 : s.isLoading = false → Op.soundSetBuffer ∈ s.log) :
    ((step s e).isLoading = true → (step s e).unwired)
    ∧ ((step s e).isLoading = false → Op.soundSetBuffer ∈ (step s e).log) := by
  cases hl : s.isLoading
  · have hl2 : (step s e).isLoading = false := by rw [step_isLoading, hl]; simp
    obtain ⟨l, hlog⟩ := step_log s e
    refine ⟨fun h => ?_, fun _ => ?_⟩
    · rw [hl2] at h; exact absurd h (by decide)
    · rw [hlog]; exact List.mem_append_left _ (h2 hl)
  · by_cases he : e = Event.loadSuccess
    · subst he
      refine ⟨fun h => ?_, fun _ => ?_⟩
      · rw [step_isLoading] at h; simp at h
      · simp [step, onLoad_eq]
    · have hl2 : (step s e).isLoading = true := by rw [step_isLoading, hl]; simp [he]
      refine ⟨fun _ => (step_unwired s e hl (h1 hl)).1 he, fun h => ?_⟩
      rw [hl2] at h; exact absurd h (by decide)

theorem run_wiring (b : BootEnv) (tr : List Event) :
    ((run (boot b) tr).isLoading = true → (run (boot b) tr).unwired)
    ∧ ((run (boot b) tr).isLoading = false → Op.soundSetBuffer ∈ (run (boot b) tr).log) := by
  induction tr using List.reverseRecOn with
  | nil =>
    refine ⟨fun _ => (boot_unwired b).1, fun h => ?_⟩
    rw [run_nil, boot_isLoading] at h
    exact absurd h (by decide)
  | append_singleton tr e ih =>
    rw [run_concat]
    exact step_wiring _ e ih.1 ih.2

/-- C6: after the bootstrap no playback call has been made; in every reachable
state, while `isLoading` is true no click listener is attached to the start button
or the window and no timer is pending; and a dispatch that makes a playback call
(`sound.play` or `sound.pause`, the calls of `togglePlayPause`) starts from a state
where `isLoading` is false and `sound.setBuffer` has already been called. -/
theorem playback_only_after_load (b : BootEnv) (tr : List Event) (e : Event) :
    playbackCalls (boot b).log = []
    ∧ ((run (boot b) tr).isLoading = true → (run (boot b) tr).unwired)
    ∧ (playbackCalls (step (run (boot b) tr) e).log ≠ playbackCalls (run (boot b) tr).log →
        (run (boot b) tr).isLoading = false
        ∧ Op.soundSetBuffer ∈ (run (boot b) tr).log) := by
  obtain ⟨h1, h2⟩ := run_wiring b tr
  refine ⟨?_, h1, fun hne => ?_⟩
  · rw [(boot_unwired b).2.2.1]; decide
  · cases hl : (run (boot b) tr).isLoading
    · exact ⟨rfl, h2 hl⟩
    · exfalso
      obtain ⟨-, -, l, hlog, hl4⟩ := step_unwired _ e hl (h1 hl)
      apply hne
      rw [hlog, playbackCalls_append, playbackCalls_of_not_userCall l hl4, List.append_nil]

/-- C6 on a concrete run: after the success callback, a click on the start button
makes a playback call, and it does so with `isLoading` false and the buffer set. -/
theorem playback_only_after_load_witness :
    playbackCalls (step (run (boot ⟨800, 600, 0, 0, true⟩) [Event.loadSuccess]) Event.startClick).log
      ≠ playbackCalls (run (boot ⟨800, 600, 0, 0, true⟩) [Event.loadSuccess]).log
    ∧ (run (boot ⟨800, 600, 0, 0, true⟩) [Event.loadSuccess]).isLoading = false
    ∧ Op.soundSetBuffer ∈ (run (boot ⟨800, 600, 0, 0, true⟩) [Event.loadSuccess]).log :=
  ⟨by decide,
   (playback_only_after_load ⟨800, 600, 0, 0, true⟩ [Event.loadSuccess] Event.startClick).2.2
     (by decide)⟩

/-- C7: in a run in which the success callback never runs (the load ended in the
error callback, or never ended), `isLoading` is still true, no click listener is
attached to the start button or to the window, `isPlaying` is still false, and
the log holds no `sound.play`, no `sound.pause` and no `hideMainSection` call,
however many clicks and resizes were dispatched. -/
theorem load_failure_inert (b : BootEnv) (tr : List Event)
    (h : Event.loadSuccess ∉ tr) :
    (run (boot b) tr).isLoading = true
    ∧ (run (boot b) tr).startClickListeners = 0
    ∧ (run (boot b) tr).windowClickListener = false
    ∧ (run (boot b) tr).isPlaying = false
    ∧ Op.soundPlay ∉ (run (boot b) tr).log
    ∧ Op.soundPause ∉ (run (boot b) tr).log
    ∧ Op.hideMainSection ∉ (run (boot b) tr).log := by
  obtain ⟨hu, hp, hlog, -⟩ := boot_unwired b
  obtain ⟨k1, k2, k3, l, k4, k5⟩ := run_unwired (boot b) tr (boot_isLoading b) hu h
  have hno : ∀ o : Op, o.isUserCall = true → o ∉ (run (boot b) tr).log := by
    intro o ho hmem
    rw [k4, hlog] at hmem
    rcases List.mem_append.mp hmem with hm | hm
    · simp only [List.mem_cons, List.mem_singleton, List.not_mem_nil, or_false] at hm
      rcases hm with rfl | rfl | rfl | rfl | rfl | rfl <;> simp [Op.isUserCall] at ho
    · rw [k5 o hm] at ho
      exact absurd ho (by decide)
  exact ⟨k1, k2.1, k2.2.1, by rw [k3, hp], hno _ rfl, hno _ rfl, hno _ rfl⟩

/-- C7 on a concrete run: the load reports progress and then fails; start-button
clicks, window clicks, timers and resizes to portrait and back follow. -/
theorem load_failure_inert_witness :
    (run (boot ⟨800, 600, 0, 0, true⟩)
      [Event.loadProgress, Event.loadError, Event.startClick, Event.windowClick,
       Event.resize 600 800, Event.startClick, Event.timeout, Event.windowClick,
       Event.resize 800 600]).isLoading = true
    ∧ (run (boot ⟨800, 600, 0, 0, true⟩)
      [Event.loadProgress, Event.loadError, Event.startClick, Event.windowClick,
       Event.resize 600 800, Event.startClick, Event.timeout, Event.windowClick,
       Event.resize 800 600]).isPlaying = false
    ∧ Op.hideMainSection ∉ (run (boot ⟨800, 600, 0, 0, true⟩)
      [Event.loadProgress, Event.loadError, Event.startClick, Event.windowClick,
       Event.resize 600 800, Event.startClick, Event.timeout, Event.windowClick,
       Event.resize 800 600]).log :=
  ⟨(load_failure_inert ⟨800, 600, 0, 0, true⟩ _ (by decide)).1,
   (load_failure_inert ⟨800, 600, 0, 0, true⟩ _ (by decide)).2.2.2.1,
   (load_failure_inert ⟨800, 600, 0, 0, true⟩ _ (by decide)).2.2.2.2.2.2⟩

/-! ## The render loop -/

theorem count_of_clickCalls (l : List Op) (h : ∀ o ∈ l, o.isClickCall = true) (a : Op)
    (ha : a.isClickCall = false) : l.count a = 0 := by
  rw [List.count_eq_zero]
  intro hmem
  rw [h a hmem] at ha
  exact absurd ha (by decide)

theorem step_frames (s : State) (e : Event) (hp : 0 < s.pendingFrames) :
    (step s e).pendingFrames = s.pendingFrames
    ∧ ∃ l, (step s e).log = s.log ++ l
      ∧ l.count Op.animate = (if e.isFrame then 1 else 0)
      ∧ l.count Op.composerRender = (if e.isFrame then 1 else 0) := by
  have hc : ∀ b : Bool, List.count Op.animate [toggleCall b] = 0
      ∧ List.count Op.composerRender [toggleCall b] = 0 := by
    intro b; cases b <;> exact ⟨by decide, by decide⟩
  cases e with
  | loadSuccess =>
    exact ⟨by simp [step, onLoad_eq],
      [Op.consoleLog, Op.soundSetBuffer, Op.buttonGetStarted], by simp [step, onLoad_eq],
      by decide, by decide⟩
  | loadProgress => exact ⟨rfl, [Op.consoleLog], rfl, by decide, by decide⟩
  | loadError => exact ⟨rfl, [Op.consoleError], rfl, by decide, by decide⟩
  | startClick =>
    obtain ⟨p, mh, tl, l, h, hl⟩ := iterate_startButtonClick s.startClickListeners s
    have ha := count_of_clickCalls l hl Op.animate rfl
    have hr := count_of_clickCalls l hl Op.composerRender rfl
    simp only [step, h, togglePlayPause_eq, Event.isFrame, Bool.false_eq_true, if_false]
    split
    · refine ⟨rfl, l ++ [toggleCall p], by simp, ?_, ?_⟩
      · rw [List.count_append, ha, (hc p).1]
      · rw [List.count_append, hr, (hc p).2]
    · exact ⟨rfl, l, rfl, ha, hr⟩
  | windowClick =>
    simp only [step, windowClickDispatch, togglePlayPause_eq, Event.isFrame,
      Bool.false_eq_true, if_false]
    split
    · exact ⟨rfl, [toggleCall s.isPlaying], rfl, (hc _).1, (hc _).2⟩
    · exact ⟨rfl, [], by simp, rfl, rfl⟩
  | resize w h =>
    simp only [step, checkOrientation_eq, Event.isFrame, Bool.false_eq_true, if_false]
    split
    · split
      · exact ⟨rfl, [], by simp, rfl, rfl⟩
      · exact ⟨rfl, [toggleCall s.isPlaying], rfl, (hc _).1, (hc _).2⟩
    · exact ⟨rfl, [], by simp, rfl, rfl⟩
  | mouseMove x y =>
    exact ⟨by simp [step, onMouseMove], [], by simp [step, onMouseMove], rfl, rfl⟩
  | frame t f =>
    simp only [step, animate_eq, hp, if_true, Event.isFrame]
    exact ⟨Nat.sub_add_cancel hp, _, rfl, by simp, by simp⟩
  | timeout =>
    simp only [step, timeoutCallback, Event.isFrame, Bool.false_eq_true, if_false]
    split <;> exact ⟨rfl, [], by simp, rfl, rfl⟩
  | transitionEnd =>
    simp only [step, onTransitionEnd, Event.isFrame, Bool.false_eq_true, if_false]
    split <;> exact ⟨rfl, [], by simp, rfl, rfl⟩
  | change c v =>
    cases c <;> exact ⟨by simp [step, onChange], [], by simp [step, onChange], rfl, rfl⟩

theorem run_frames (s : State) (tr : List Event) (hp : 0 < s.pendingFrames) :
    (run s tr).log.count Op.animate = s.log.count Op.animate + tr.countP Event.isFrame
    ∧ (run s tr).log.count Op.composerRender
        = s.log.count Op.composerRender + tr.countP Event.isFrame := by
  induction tr generalizing s with
  | nil => simp [run_nil]
  | cons e tr ih =>
    obtain ⟨h1, l, h2, h3, h4⟩ := step_frames s e hp
    obtain ⟨k1, k2⟩ := ih (step s e) (by rw [h1]; exact hp)
    rw [run_cons, k1, k2, h2, List.count_append, List.count_append, h3, h4, List.countP_cons]
    constructor <;> omega

/-- C5 fails as stated: after the bootstrap alone `animate` and
`bloomComposer.render` have been called although the success callback has not run
(`isLoading` is true, `sound.setBuffer` was never called); and in a run where the
load fails, `animate` has been called twice once a frame has been dispatched. -/
theorem animate_runs_without_load :
    Op.animate ∈ (boot ⟨800, 600, 0, 0, true⟩).log
    ∧ Op.composerRender ∈ (boot ⟨800, 600, 0, 0, true⟩).log
    ∧ (boot ⟨800, 600, 0, 0, true⟩).isLoading = true
    ∧ Op.soundSetBuffer ∉ (boot ⟨800, 600, 0, 0, true⟩).log
    ∧ (run (boot ⟨800, 600, 0, 0, true⟩) [Event.loadError, Event.frame 1 0]).log.count Op.animate = 2
    ∧ Op.soundSetBuffer ∉ (run (boot ⟨800, 600, 0, 0, true⟩) [Event.loadError, Event.frame 1 0]).log := by
  decide

/-- C5 (amended): the render loop is started by the bootstrap, not by the audio
load.  The bootstrap calls `animate` once (with one `bloomComposer.render`) while
`isLoading` is true and before any loader callback, and in every run, whether the
load succeeds, fails or never completes, the number of `animate` calls and of
`bloomComposer.render` calls is one plus the number of animation frames
dispatched. -/
theorem animate_started_by_boot (b : BootEnv) (tr : List Event) :
    (boot b).isLoading = true
    ∧ Op.soundSetBuffer ∉ (boot b).log
    ∧ (boot b).log.count Op.animate = 1
    ∧ (boot b).log.count Op.composerRender = 1
    ∧ (run (boot b) tr).log.count Op.animate = 1 + tr.countP Event.isFrame
    ∧ (run (boot b) tr).log.count Op.composerRender = 1 + tr.countP Event.isFrame := by
  obtain ⟨-, -, hlog, hpf⟩ := boot_unwired b
  obtain ⟨h1, h2⟩ := run_frames (boot b) tr (by rw [hpf]; exact Nat.one_pos)
  rw [h1, h2, hlog]
  exact ⟨boot_isLoading b, by decide, by decide, by decide, by simp, by simp⟩

/-! ## The control panel -/

/-- C8: the change callback of a control, called with `v`, makes the field bound to
it read exactly `v` (red, green, blue: `uniforms.u_red/u_green/u_blue.value`;
threshold, strength, radius: `bloomPass.threshold/strength/radius`), leaves the
fields of the other five controls and `u_time`, `u_frequency` as they were, and the
value is still there after the next render tick.  No range is assumed of `v`, so
this holds in particular on `[0,1]` and, for strength, on `[0,3]`. -/
theorem onChange_roundtrip (c : Control) (v : ℚ) (s : State) (t f : ℚ) :
    boundField c (step s (Event.change c v)) = v
    ∧ (∀ c2, c2 ≠ c → boundField c2 (step s (Event.change c v)) = boundField c2 s)
    ∧ (step s (Event.change c v)).u_time = s.u_time
    ∧ (step s (Event.change c v)).u_frequency = s.u_frequency
    ∧ boundField c (step (step s (Event.change c v)) (Event.frame t f)) = v
    ∧ (step s (Event.change Control.red v)).u_red = v
    ∧ (step s (Event.change Control.green v)).u_green = v
    ∧ (step s (Event.change Control.blue v)).u_blue = v
    ∧ (step s (Event.change Control.threshold v)).bloomThreshold = v
    ∧ (step s (Event.change Control.strength v)).bloomStrength = v
    ∧ (step s (Event.change Control.radius v)).bloomRadius = v := by
  refine ⟨?_, ?_, ?_, ?_, ?_, rfl, rfl, rfl, rfl, rfl, rfl⟩
  · cases c <;> rfl
  · intro c2 h
    cases c <;> cases c2 <;> first | rfl | exact absurd rfl h
  · cases c <;> rfl
  · cases c <;> rfl
  · simp only [step, animate_eq]
    split <;> cases c <;> rfl

/-- C8 on the example of the specification: the strength control set to 2.5 in a
reachable state; `bloomPass.strength` reads 2.5, also after the next render tick,
and the threshold, bound to another control, keeps its value. -/
theorem onChange_roundtrip_witness :
    (step playingLandscape (Event.change Control.strength (5 / 2))).bloomStrength = 5 / 2
    ∧ (step (step playingLandscape (Event.change Control.strength (5 / 2)))
        (Event.frame 1 0)).bloomStrength = 5 / 2
    ∧ (step playingLandscape (Event.change Control.strength (5 / 2))).bloomThreshold
        = playingLandscape.bloomThreshold :=
  ⟨(onChange_roundtrip Control.strength (5 / 2) playingLandscape 1 0).1,
   (onChange_roundtrip Control.strength (5 / 2) playingLandscape 1 0).2.2.2.2.1,
   (onChange_roundtrip Control.strength (5 / 2) playingLandscape 1 0).2.1
     Control.threshold (by decide)⟩

/-! ## Camera smoothing -/

/-- C10: with exact rationals, one `animate` tick moves the camera to
`x + (mouseX - x) * 5/100` and `y + (-mouseY - y) * 50/100`; the distance left to
the target `(mouseX, -mouseY)` is multiplied by exactly 95/100 horizontally and
50/100 vertically; the target itself is not moved by the tick; a camera at the
target stays there; the new position lies between the old position and the
target, so the camera never overshoots; and nothing is clamped: the formulas hold
for every mouse offset, and the `mousemove` listener stores
`(clientX - innerWidth/2) / 100` and `(clientY - innerHeight/2) / 100` as they
are. -/
theorem animate_camera_smoothing (t f : ℚ) (s : State) (clientX clientY : ℚ) :
    (animate t f s).cameraX = s.cameraX + (s.mouseX - s.cameraX) * (5 / 100)
    ∧ (animate t f s).cameraY = s.cameraY + (-s.mouseY - s.cameraY) * (50 / 100)
    ∧ s.mouseX - (animate t f s).cameraX = (s.mouseX - s.cameraX) * (95 / 100)
    ∧ -s.mouseY - (animate t f s).cameraY = (-s.mouseY - s.cameraY) * (50 / 100)
    ∧ (animate t f s).mouseX = s.mouseX
    ∧ (animate t f s).mouseY = s.mouseY
    ∧ (animate t f { s with cameraX := s.mouseX, cameraY := -s.mouseY }).cameraX = s.mouseX
    ∧ (animate t f { s with cameraX := s.mouseX, cameraY := -s.mouseY }).cameraY = -s.mouseY
    ∧ min s.cameraX s.mouseX ≤ (animate t f s).cameraX
    ∧ (animate t f s).cameraX ≤ max s.cameraX s.mouseX
    ∧ min s.cameraY (-s.mouseY) ≤ (animate t f s).cameraY
    ∧ (animate t f s).cameraY ≤ max s.cameraY (-s.mouseY)
    ∧ (onMouseMove clientX clientY s).mouseX = (clientX - (s.innerWidth : ℚ) / 2) / 100
    ∧ (onMouseMove clientX clientY s).mouseY = (clientY - (s.innerHeight : ℚ) / 2) / 100 := by
  have hx : (animate t f s).cameraX = s.cameraX + (s.mouseX - s.cameraX) * (5 / 100) := by
    rw [animate_eq]
  have hy : (animate t f s).cameraY = s.cameraY + (-s.mouseY - s.cameraY) * (50 / 100) := by
    rw [animate_eq]
  refine ⟨hx, hy, by rw [hx]; ring, by rw [hy]; ring, by rw [animate_eq], by rw [animate_eq],
    by rw [animate_eq]; simp, by rw [animate_eq]; simp, ?_, ?_, ?_, ?_, rfl, rfl⟩
  all_goals first | rw [hx] | rw [hy]
  · rcases le_total s.cameraX s.mouseX with h | h
    · rw [min_eq_left h]; linarith
    · rw [min_eq_right h]; linarith
  · rcases le_total s.cameraX s.mouseX with h | h
    · rw [max_eq_right h]; linarith
    · rw [max_eq_left h]; linarith
  · rcases le_total s.cameraY (-s.mouseY) with h | h
    · rw [min_eq_left h]; linarith
    · rw [min_eq_right h]; linarith
  · rcases le_total s.cameraY (-s.mouseY) with h | h
    · rw [max_eq_right h]; linarith
    · rw [max_eq_left h]; linarith

end HowToChange
